import Mathlib

/-!
Verification of the amethyst `config` module: a schema-driven configuration
loader that reads a YAML-like document tree into typed structures, falling
back to declared per-field defaults whenever a field is absent or malformed,
with an "extern" marker that redirects a field to a separate file on disk.

The schema declarations (`Test`, `DisplayConfig`, `LoggingConfig`,
`InnerInnerConfig`, `InnerConfig`, `Config`) are embedded from
`src/config/mod.rs`.  The conversion engine itself (the `Element` trait,
the `config!` macro expansion, and the `yaml` helper module) is not part of
the provided sources, so those operations are modelled from the spec, as
noted on each definition.
-/

set_option autoImplicit false
set_option maxRecDepth 1024

namespace AmethystConfig

/-- A generic parsed document node: scalar (string / integer / real /
boolean), sequence, or mapping with string keys.  `f64` scalars are
modelled by `Rat`; no arithmetic is performed on them, they are only
carried through conversion. -/
inductive Node where
  | sstr  (s : String)
  | sint  (i : Int)
  | sreal (r : Rat)
  | sbool (b : Bool)
  | seq   (xs : List Node)
  | nmap  (kvs : List (String × Node))
deriving Repr

/-- Modelled from the spec: the kinds of field-level conversion failure
(`ConversionError.kind`). -/
inductive ErrorKind where
  | typeMismatch
  | missingField
  | externNotFound
  | malformed
  | io
deriving DecidableEq, Repr

/-- Modelled from the spec: a field-level conversion error, carrying the
dotted field path at failure time. -/
structure ConversionError where
  kind : ErrorKind
  path : List String
deriving DecidableEq, Repr

/-- Modelled from the spec: the per-load context `ConfigMeta` — the base
filesystem directory currently in scope and the field path traversed so
far. -/
structure LoadContext where
  baseDir : String
  fieldPath : List String
deriving DecidableEq, Repr

/-- The filesystem, modelled as a map from a path to the parsed document
node of the file there: `none` means the file is missing, unreadable, or
not parseable as a tree. -/
def FS : Type := String → Option Node

/-- First value bound to `name` in a mapping's key/value list. -/
def lookupKey : List (String × Node) → String → Option Node
  | [], _ => none
  | (k, v) :: rest, name => if k = name then some v else lookupKey rest name

/-- Recover from a field-level conversion failure by substituting the
declared default. -/
def recover {α : Type} (r : Except ConversionError α) (dflt : α) : α :=
  match r with
  | .ok v => v
  | .error _ => dflt

/-- Whether a child node is the scalar string `"extern"` (the file-split
indirection marker). -/
def isExternMarker : Option Node → Bool
  | some (.sstr s) => s == "extern"
  | _ => false

/-- Modelled from the spec: the candidate files tried by the resolver for
an `"extern"` field, in order, each paired with the redirected base
directory that a hit there establishes.  The engine code performing this
search is not under `src/`; the order is the one documented in
`src/config/mod.rs` lines 68-70. -/
def externCandidates (base name : String) : List (String × String) :=
  [ (base ++ "/" ++ name ++ "/config.yml",  base ++ "/" ++ name),
    (base ++ "/" ++ name ++ "/config.yaml", base ++ "/" ++ name),
    (base ++ "/" ++ name ++ ".yml",  base),
    (base ++ "/" ++ name ++ ".yaml", base) ]

/-- Modelled from the spec: try each candidate path in order; the first
file that exists (and parses) wins, together with its redirected base
directory.  If none exists the result is `none` ("not found"). -/
def externResolve (fs : FS) : List (String × String) → Option (Node × String)
  | [] => none
  | (p, d) :: rest =>
    match fs p with
    | some n => some (n, d)
    | none => externResolve fs rest

/-- Modelled from the spec (§4.3, steps 2a-2d): process one field of a
compound schema.  Look the field's name up in the mapping; if the child is
the scalar string `"extern"`, substitute the node resolved from disk (or
no node when resolution fails, rebasing the directory on a hit); then run
the field type's conversion with the field path extended by the name, and
on any conversion error fall back to the declared default. -/
def loadField {α : Type}
    (fromN : FS → LoadContext → Option Node → Except ConversionError α)
    (dflt : α) (fs : FS) (ctx : LoadContext)
    (kvs : List (String × Node)) (name : String) : α :=
  let child := lookupKey kvs name
  cond (isExternMarker child)
    (match externResolve fs (externCandidates ctx.baseDir name) with
     | some (n, newBase) =>
        recover (fromN fs ⟨newBase, ctx.fieldPath ++ [name]⟩ (some n)) dflt
     | none =>
        recover (fromN fs ⟨ctx.baseDir, ctx.fieldPath ++ [name]⟩ none) dflt)
    (recover (fromN fs ⟨ctx.baseDir, ctx.fieldPath ++ [name]⟩ child) dflt)

/-- Modelled from the spec: the `String` adapter converts only from a
string scalar; an absent node is `MissingField`, any other node is
`TypeMismatch`. -/
def strFromNode (_ : FS) (ctx : LoadContext) :
    Option Node → Except ConversionError String
  | some (.sstr s) => .ok s
  | none => .error ⟨.missingField, ctx.fieldPath⟩
  | some _ => .error ⟨.typeMismatch, ctx.fieldPath⟩

/-- Modelled from the spec: the `bool` adapter converts only from a
boolean scalar. -/
def boolFromNode (_ : FS) (ctx : LoadContext) :
    Option Node → Except ConversionError Bool
  | some (.sbool b) => .ok b
  | none => .error ⟨.missingField, ctx.fieldPath⟩
  | some _ => .error ⟨.typeMismatch, ctx.fieldPath⟩

/-- Modelled from the spec: the `f64` adapter converts only from a real
scalar (modelled by `Rat`). -/
def f64FromNode (_ : FS) (ctx : LoadContext) :
    Option Node → Except ConversionError Rat
  | some (.sreal r) => .ok r
  | none => .error ⟨.missingField, ctx.fieldPath⟩
  | some _ => .error ⟨.typeMismatch, ctx.fieldPath⟩

/-- Modelled from the spec: the `u16` adapter converts only from an
integer scalar in `[0, 2^16)`; values are carried as `Nat`. -/
def u16FromNode (_ : FS) (ctx : LoadContext) :
    Option Node → Except ConversionError Nat
  | some (.sint i) =>
      if 0 ≤ i ∧ i < 65536 then .ok i.toNat
      else .error ⟨.typeMismatch, ctx.fieldPath⟩
  | none => .error ⟨.missingField, ctx.fieldPath⟩
  | some _ => .error ⟨.typeMismatch, ctx.fieldPath⟩

/-- Modelled from the spec: the `u64` adapter converts only from an
integer scalar in `[0, 2^64)`; values are carried as `Nat`. -/
def u64FromNode (_ : FS) (ctx : LoadContext) :
    Option Node → Except ConversionError Nat
  | some (.sint i) =>
      if 0 ≤ i ∧ i < 18446744073709551616 then .ok i.toNat
      else .error ⟨.typeMismatch, ctx.fieldPath⟩
  | none => .error ⟨.missingField, ctx.fieldPath⟩
  | some _ => .error ⟨.typeMismatch, ctx.fieldPath⟩

/-- Modelled from the spec: element-wise conversion of a sequence's
elements, short-circuiting on the first element failure. -/
def convertAll {α : Type} (f : Node → Except ConversionError α) :
    List Node → Except ConversionError (List α)
  | [] => .ok []
  | x :: xs =>
    match f x with
    | .error e => .error e
    | .ok v =>
      match convertAll f xs with
      | .error e => .error e
      | .ok vs => .ok (v :: vs)

/-- Modelled from the spec: the fixed-size array adapter of declared
length `n`.  It requires a sequence node of exactly `n` elements, converts
element-wise short-circuiting on the first element failure, and yields
`Malformed` on a length mismatch. -/
def arrFromNode {α : Type}
    (elemFrom : FS → LoadContext → Option Node → Except ConversionError α)
    (n : Nat) (fs : FS) (ctx : LoadContext) :
    Option Node → Except ConversionError (List α)
  | some (.seq xs) =>
      if xs.length = n then convertAll (fun x => elemFrom fs ctx (some x)) xs
      else .error ⟨.malformed, ctx.fieldPath⟩
  | none => .error ⟨.missingField, ctx.fieldPath⟩
  | some _ => .error ⟨.typeMismatch, ctx.fieldPath⟩

/-- The `Test` enumeration declared by `config_enum!` in
`src/config/mod.rs`: variants `Option1`, `Option2`, `Option3`. -/
inductive Test where
  | Option1
  | Option2
  | Option3
deriving DecidableEq, Repr

/-- Modelled from the spec: the enum adapter produced by `config_enum!`
requires a string scalar equal (case-sensitively) to one of the declared
variant names; anything else is a conversion error. -/
def Test.fromNode (_ : FS) (ctx : LoadContext) :
    Option Node → Except ConversionError Test
  | some (.sstr s) =>
      if s = "Option1" then .ok .Option1
      else if s = "Option2" then .ok .Option2
      else if s = "Option3" then .ok .Option3
      else .error ⟨.typeMismatch, ctx.fieldPath⟩
  | none => .error ⟨.missingField, ctx.fieldPath⟩
  | some _ => .error ⟨.typeMismatch, ctx.fieldPath⟩

/-- Modelled from the spec: the enum adapter serializes a variant as its
declared name. -/
def Test.toNode : Test → Node
  | .Option1 => .sstr "Option1"
  | .Option2 => .sstr "Option2"
  | .Option3 => .sstr "Option3"

/-- `DisplayConfig` as declared in `src/config/mod.rs`: brightness
(`f64`, default `1.0`), fullscreen (`bool`, default `false`), size
(`[u16; 2]`, default `[1024, 768]`). -/
structure DisplayConfig where
  brightness : Rat
  fullscreen : Bool
  size : List Nat
deriving DecidableEq, Repr

def DisplayConfig.default : DisplayConfig :=
  { brightness := 1, fullscreen := false, size := [1024, 768] }

/-- Modelled from the spec (§4.3): compound loading for `DisplayConfig`.
An absent node defaults every field; a mapping node is processed field by
field; any other node is a type mismatch. -/
def DisplayConfig.fromNode (fs : FS) (ctx : LoadContext) :
    Option Node → Except ConversionError DisplayConfig
  | none => .ok DisplayConfig.default
  | some (.nmap kvs) => .ok
      { brightness := loadField f64FromNode 1 fs ctx kvs "brightness"
        fullscreen := loadField boolFromNode false fs ctx kvs "fullscreen"
        size := loadField (arrFromNode u16FromNode 2) [1024, 768] fs ctx kvs "size" }
  | some _ => .error ⟨.typeMismatch, ctx.fieldPath⟩

/-- Modelled from the spec (§4.5): serialize each field in declaration
order into a mapping. -/
def DisplayConfig.toNode (c : DisplayConfig) : Node :=
  .nmap [ ("brightness", .sreal c.brightness),
          ("fullscreen", .sbool c.fullscreen),
          ("size", .seq (c.size.map fun v => .sint (Int.ofNat v))) ]

/-- `LoggingConfig` as declared in `src/config/mod.rs`: three `String`
fields with defaults `"new_project.log"`, `"warn"`, `"debug"`. -/
structure LoggingConfig where
  file_path : String
  output_level : String
  logging_level : String
deriving DecidableEq, Repr

def LoggingConfig.default : LoggingConfig :=
  { file_path := "new_project.log", output_level := "warn",
    logging_level := "debug" }

/-- Modelled from the spec (§4.3): compound loading for `LoggingConfig`. -/
def LoggingConfig.fromNode (fs : FS) (ctx : LoadContext) :
    Option Node → Except ConversionError LoggingConfig
  | none => .ok LoggingConfig.default
  | some (.nmap kvs) => .ok
      { file_path := loadField strFromNode "new_project.log" fs ctx kvs "file_path"
        output_level := loadField strFromNode "warn" fs ctx kvs "output_level"
        logging_level := loadField strFromNode "debug" fs ctx kvs "logging_level" }
  | some _ => .error ⟨.typeMismatch, ctx.fieldPath⟩

/-- Modelled from the spec (§4.5): serialization for `LoggingConfig`. -/
def LoggingConfig.toNode (c : LoggingConfig) : Node :=
  .nmap [ ("file_path", .sstr c.file_path),
          ("output_level", .sstr c.output_level),
          ("logging_level", .sstr c.logging_level) ]

/-- `InnerInnerConfig` as declared in `src/config/mod.rs`: one `u64`
field with default `58123`. -/
structure InnerInnerConfig where
  field : Nat
deriving DecidableEq, Repr

def InnerInnerConfig.default : InnerInnerConfig := { field := 58123 }

/-- Modelled from the spec (§4.3): compound loading for
`InnerInnerConfig`. -/
def InnerInnerConfig.fromNode (fs : FS) (ctx : LoadContext) :
    Option Node → Except ConversionError InnerInnerConfig
  | none => .ok InnerInnerConfig.default
  | some (.nmap kvs) => .ok
      { field := loadField u64FromNode 58123 fs ctx kvs "field" }
  | some _ => .error ⟨.typeMismatch, ctx.fieldPath⟩

/-- Modelled from the spec (§4.5): serialization for `InnerInnerConfig`. -/
def InnerInnerConfig.toNode (c : InnerInnerConfig) : Node :=
  .nmap [ ("field", .sint (Int.ofNat c.field)) ]

/-- `InnerConfig` as declared in `src/config/mod.rs`: one nested
`InnerInnerConfig` field defaulting to `InnerInnerConfig::default()`. -/
structure InnerConfig where
  inner_inner : InnerInnerConfig
deriving DecidableEq, Repr

def InnerConfig.default : InnerConfig :=
  { inner_inner := InnerInnerConfig.default }

/-- Modelled from the spec (§4.3): compound loading for `InnerConfig`;
the nested field recurses into `InnerInnerConfig.fromNode`. -/
def InnerConfig.fromNode (fs : FS) (ctx : LoadContext) :
    Option Node → Except ConversionError InnerConfig
  | none => .ok InnerConfig.default
  | some (.nmap kvs) => .ok
      { inner_inner :=
          loadField InnerInnerConfig.fromNode InnerInnerConfig.default
            fs ctx kvs "inner_inner" }
  | some _ => .error ⟨.typeMismatch, ctx.fieldPath⟩

/-- Modelled from the spec (§4.5): serialization for `InnerConfig`. -/
def InnerConfig.toNode (c : InnerConfig) : Node :=
  .nmap [ ("inner_inner", c.inner_inner.toNode) ]

/-- `Config` as declared in `src/config/mod.rs`: title (`String`,
default `"Amethyst game"`), en (`Test`, default `Option1`), display,
logging, inner, inner_inner, each defaulting to its own `default()`. -/
structure Config where
  title : String
  en : Test
  display : DisplayConfig
  logging : LoggingConfig
  inner : InnerConfig
  inner_inner : InnerInnerConfig
deriving DecidableEq, Repr

def Config.default : Config :=
  { title := "Amethyst game", en := .Option1,
    display := DisplayConfig.default, logging := LoggingConfig.default,
    inner := InnerConfig.default, inner_inner := InnerInnerConfig.default }

/-- Modelled from the spec (§4.3): compound loading for the top-level
`Config` schema. -/
def Config.fromNode (fs : FS) (ctx : LoadContext) :
    Option Node → Except ConversionError Config
  | none => .ok Config.default
  | some (.nmap kvs) => .ok
      { title := loadField strFromNode "Amethyst game" fs ctx kvs "title"
        en := loadField Test.fromNode .Option1 fs ctx kvs "en"
        display := loadField DisplayConfig.fromNode DisplayConfig.default
          fs ctx kvs "display"
        logging := loadField LoggingConfig.fromNode LoggingConfig.default
          fs ctx kvs "logging"
        inner := loadField InnerConfig.fromNode InnerConfig.default
          fs ctx kvs "inner"
        inner_inner := loadField InnerInnerConfig.fromNode InnerInnerConfig.default
          fs ctx kvs "inner_inner" }
  | some _ => .error ⟨.typeMismatch, ctx.fieldPath⟩

/-- Modelled from the spec (§4.5): serialization for `Config`, every
field rendered in declaration order. -/
def Config.toNode (c : Config) : Node :=
  .nmap [ ("title", .sstr c.title),
          ("en", c.en.toNode),
          ("display", c.display.toNode),
          ("logging", c.logging.toNode),
          ("inner", c.inner.toNode),
          ("inner_inner", c.inner_inner.toNode) ]

/-- Modelled from the spec (§6, §7): the top-level load.  It fails, with
an `Io`-kind error, exactly when the root file is missing, unreadable or
unparseable; once a root node is obtained the fail-open policy applies
and the result is always a value (a root of the wrong shape defaults the
whole configuration). -/
def load (fs : FS) (baseDir file : String) : Except ConversionError Config :=
  match fs (baseDir ++ "/" ++ file) with
  | none => .error ⟨.io, []⟩
  | some n => .ok (recover (Config.fromNode fs ⟨baseDir, []⟩ (some n)) Config.default)

/-- The representation invariant of a Rust `DisplayConfig` value: the
`[u16; 2]` array has length 2 and `u16` entries. -/
def DisplayConfig.wf (c : DisplayConfig) : Prop :=
  c.size.length = 2 ∧ ∀ v ∈ c.size, v < 65536

/-- A `LoggingConfig` value whose string fields do not collide with the
literal extern marker. -/
def LoggingConfig.wf (c : LoggingConfig) : Prop :=
  c.file_path ≠ "extern" ∧ c.output_level ≠ "extern" ∧
    c.logging_level ≠ "extern"

/-- The representation invariant of a Rust `InnerInnerConfig` value: the
`u64` field fits in 64 bits. -/
def InnerInnerConfig.wf (c : InnerInnerConfig) : Prop :=
  c.field < 18446744073709551616

/-- Well-formedness of an `InnerConfig` value. -/
def InnerConfig.wf (c : InnerConfig) : Prop :=
  c.inner_inner.wf

/-- Well-formedness of a `Config` value: representation invariants of the
Rust integer types hold and no string field collides with the literal
extern marker. -/
def Config.wf (c : Config) : Prop :=
  c.title ≠ "extern" ∧ c.display.wf ∧ c.logging.wf ∧ c.inner.wf ∧
    c.inner_inner.wf

section Helpers

variable {α : Type} (fromN : FS → LoadContext → Option Node → Except ConversionError α)
variable (dflt : α) (fs : FS) (ctx : LoadContext)
variable (kvs kvs₂ : List (String × Node)) (name : String)

/-- A field whose child is not the extern marker is converted directly
from its child node. -/
theorem loadField_of_not_marker
    (h : isExternMarker (lookupKey kvs name) = false) :
    loadField fromN dflt fs ctx kvs name =
      recover (fromN fs ⟨ctx.baseDir, ctx.fieldPath ++ [name]⟩
        (lookupKey kvs name)) dflt := by
  simp only [loadField, h, cond_false]

/-- A field marked extern whose resolution hits a file is converted from
that file's node under the redirected base directory. -/
theorem loadField_extern_hit {n : Node} {d : String}
    (h : lookupKey kvs name = some (.sstr "extern"))
    (h2 : externResolve fs (externCandidates ctx.baseDir name) = some (n, d)) :
    loadField fromN dflt fs ctx kvs name =
      recover (fromN fs ⟨d, ctx.fieldPath ++ [name]⟩ (some n)) dflt := by
  simp only [loadField, h, isExternMarker, beq_self_eq_true, cond_true, h2]

/-- A field marked extern whose resolution fails is converted from an
absent node. -/
theorem loadField_extern_miss
    (h : lookupKey kvs name = some (.sstr "extern"))
    (h2 : externResolve fs (externCandidates ctx.baseDir name) = none) :
    loadField fromN dflt fs ctx kvs name =
      recover (fromN fs ⟨ctx.baseDir, ctx.fieldPath ++ [name]⟩ none) dflt := by
  simp only [loadField, h, isExternMarker, beq_self_eq_true, cond_true, h2]

/-- A field's loaded value depends on the document mapping only through
the entry bound to the field's own name. -/
theorem loadField_congr (h : lookupKey kvs name = lookupKey kvs₂ name) :
    loadField fromN dflt fs ctx kvs name =
      loadField fromN dflt fs ctx kvs₂ name := by
  simp only [loadField, h]

/-- The resolver takes the first candidate that exists. -/
theorem externResolve_cons_hit {p d : String} {n : Node}
    {rest : List (String × String)} (h : fs p = some n) :
    externResolve fs ((p, d) :: rest) = some (n, d) := by
  simp [externResolve, h]

/-- The resolver skips a missing candidate. -/
theorem externResolve_cons_miss {p d : String}
    {rest : List (String × String)} (h : fs p = none) :
    externResolve fs ((p, d) :: rest) = externResolve fs rest := by
  simp [externResolve, h]

end Helpers

/-- Unfolding equation: loading `Config` from a mapping node processes
each declared field independently. -/
theorem configFromNode_nmap (fs : FS) (ctx : LoadContext)
    (kvs : List (String × Node)) :
    Config.fromNode fs ctx (some (.nmap kvs)) = .ok
      { title := loadField strFromNode "Amethyst game" fs ctx kvs "title"
        en := loadField Test.fromNode .Option1 fs ctx kvs "en"
        display := loadField DisplayConfig.fromNode DisplayConfig.default
          fs ctx kvs "display"
        logging := loadField LoggingConfig.fromNode LoggingConfig.default
          fs ctx kvs "logging"
        inner := loadField InnerConfig.fromNode InnerConfig.default
          fs ctx kvs "inner"
        inner_inner := loadField InnerInnerConfig.fromNode
          InnerInnerConfig.default fs ctx kvs "inner_inner" } := rfl

/-- Unfolding equation for `DisplayConfig` on a mapping node. -/
theorem displayFromNode_nmap (fs : FS) (ctx : LoadContext)
    (kvs : List (String × Node)) :
    DisplayConfig.fromNode fs ctx (some (.nmap kvs)) = .ok
      { brightness := loadField f64FromNode 1 fs ctx kvs "brightness"
        fullscreen := loadField boolFromNode false fs ctx kvs "fullscreen"
        size := loadField (arrFromNode u16FromNode 2) [1024, 768]
          fs ctx kvs "size" } := rfl

/-- Unfolding equation for `LoggingConfig` on a mapping node. -/
theorem loggingFromNode_nmap (fs : FS) (ctx : LoadContext)
    (kvs : List (String × Node)) :
    LoggingConfig.fromNode fs ctx (some (.nmap kvs)) = .ok
      { file_path := loadField strFromNode "new_project.log" fs ctx kvs "file_path"
        output_level := loadField strFromNode "warn" fs ctx kvs "output_level"
        logging_level := loadField strFromNode "debug" fs ctx kvs "logging_level" } := rfl

/-- Unfolding equation for `InnerConfig` on a mapping node. -/
theorem innerConfigFromNode_nmap (fs : FS) (ctx : LoadContext)
    (kvs : List (String × Node)) :
    InnerConfig.fromNode fs ctx (some (.nmap kvs)) = .ok
      { inner_inner := loadField InnerInnerConfig.fromNode
          InnerInnerConfig.default fs ctx kvs "inner_inner" } := rfl

/-- Unfolding equation for `InnerInnerConfig` on a mapping node. -/
theorem innerInnerConfigFromNode_nmap (fs : FS) (ctx : LoadContext)
    (kvs : List (String × Node)) :
    InnerInnerConfig.fromNode fs ctx (some (.nmap kvs)) = .ok
      { field := loadField u64FromNode 58123 fs ctx kvs "field" } := rfl

/-- C2: loading an empty document yields `Config.default`, every compound
schema converts both an empty mapping and an absent node to its own
`default()`, and defaulting is recursive: each nested schema inside a
default value carries its own declared defaults, down to the innermost
field. -/
theorem c2_empty_document_defaults (fs : FS) (ctx : LoadContext)
    (baseDir file : String)
    (hroot : fs (baseDir ++ "/" ++ file) = some (.nmap [])) :
    load fs baseDir file = .ok Config.default ∧
    Config.fromNode fs ctx (some (.nmap [])) = .ok Config.default ∧
    Config.fromNode fs ctx none = .ok Config.default ∧
    DisplayConfig.fromNode fs ctx (some (.nmap [])) = .ok DisplayConfig.default ∧
    DisplayConfig.fromNode fs ctx none = .ok DisplayConfig.default ∧
    LoggingConfig.fromNode fs ctx (some (.nmap [])) = .ok LoggingConfig.default ∧
    LoggingConfig.fromNode fs ctx none = .ok LoggingConfig.default ∧
    InnerConfig.fromNode fs ctx (some (.nmap [])) = .ok InnerConfig.default ∧
    InnerConfig.fromNode fs ctx none = .ok InnerConfig.default ∧
    InnerInnerConfig.fromNode fs ctx (some (.nmap [])) = .ok InnerInnerConfig.default ∧
    InnerInnerConfig.fromNode fs ctx none = .ok InnerInnerConfig.default ∧
    Config.default.display = DisplayConfig.default ∧
    Config.default.logging = LoggingConfig.default ∧
    Config.default.inner = InnerConfig.default ∧
    Config.default.inner_inner = InnerInnerConfig.default ∧
    Config.default.inner.inner_inner = InnerInnerConfig.default ∧
    InnerConfig.default.inner_inner.field = 58123 := by
  refine ⟨?_, rfl, rfl, rfl, rfl, rfl, rfl, rfl, rfl, rfl, rfl,
    rfl, rfl, rfl, rfl, rfl, rfl⟩
  unfold load
  rw [hroot]
  rfl

/-- C2 witness: a concrete filesystem whose root file parses to an empty
mapping loads to `Config.default`. -/
theorem c2_empty_document_defaults_witness :
    load (fun p => if p = "base/run.yml" then some (.nmap []) else none)
      "base" "run.yml" = .ok Config.default :=
  (c2_empty_document_defaults
    (fun p => if p = "base/run.yml" then some (.nmap []) else none)
    ⟨"base", []⟩ "base" "run.yml" (by rfl)).1

/-- C4: the extern resolver tries `base/name/config.yml`,
`base/name/config.yaml`, `base/name.yml`, `base/name.yaml` in exactly that
order: a hit at a candidate is returned only when all earlier candidates
are missing, the directory forms redirect the base directory to
`base/name` while the sibling forms keep `base`, the directory form beats
the sibling form when both exist, and the resolver reports "not found"
only when all four candidates are missing. -/
theorem c4_extern_search_order (fs : FS) (base name : String) :
    (∀ n, fs (base ++ "/" ++ name ++ "/config.yml") = some n →
      externResolve fs (externCandidates base name) =
        some (n, base ++ "/" ++ name)) ∧
    (∀ n, fs (base ++ "/" ++ name ++ "/config.yml") = none →
      fs (base ++ "/" ++ name ++ "/config.yaml") = some n →
      externResolve fs (externCandidates base name) =
        some (n, base ++ "/" ++ name)) ∧
    (∀ n, fs (base ++ "/" ++ name ++ "/config.yml") = none →
      fs (base ++ "/" ++ name ++ "/config.yaml") = none →
      fs (base ++ "/" ++ name ++ ".yml") = some n →
      externResolve fs (externCandidates base name) = some (n, base)) ∧
    (∀ n, fs (base ++ "/" ++ name ++ "/config.yml") = none →
      fs (base ++ "/" ++ name ++ "/config.yaml") = none →
      fs (base ++ "/" ++ name ++ ".yml") = none →
      fs (base ++ "/" ++ name ++ ".yaml") = some n →
      externResolve fs (externCandidates base name) = some (n, base)) ∧
    (∀ n₁ n₂, fs (base ++ "/" ++ name ++ "/config.yml") = some n₁ →
      fs (base ++ "/" ++ name ++ ".yml") = some n₂ →
      externResolve fs (externCandidates base name) =
        some (n₁, base ++ "/" ++ name)) ∧
    (fs (base ++ "/" ++ name ++ "/config.yml") = none →
      fs (base ++ "/" ++ name ++ "/config.yaml") = none →
      fs (base ++ "/" ++ name ++ ".yml") = none →
      fs (base ++ "/" ++ name ++ ".yaml") = none →
      externResolve fs (externCandidates base name) = none) := by
  refine ⟨?_, ?_, ?_, ?_, ?_, ?_⟩
  · intro n h
    simp only [externCandidates]
    rw [externResolve_cons_hit fs h]
  · intro n h1 h2
    simp only [externCandidates]
    rw [externResolve_cons_miss fs h1, externResolve_cons_hit fs h2]
  · intro n h1 h2 h3
    simp only [externCandidates]
    rw [externResolve_cons_miss fs h1, externResolve_cons_miss fs h2,
      externResolve_cons_hit fs h3]
  · intro n h1 h2 h3 h4
    simp only [externCandidates]
    rw [externResolve_cons_miss fs h1, externResolve_cons_miss fs h2,
      externResolve_cons_miss fs h3, externResolve_cons_hit fs h4]
  · intro n₁ n₂ h1 h2
    simp only [externCandidates]
    rw [externResolve_cons_hit fs h1]
  · intro h1 h2 h3 h4
    simp only [externCandidates]
    rw [externResolve_cons_miss fs h1, externResolve_cons_miss fs h2,
      externResolve_cons_miss fs h3, externResolve_cons_miss fs h4]
    rfl

/-- C4 witness: with both `root/display/config.yml` and
`root/display.yml` present, the directory form is chosen, together with
the redirected base directory. -/
theorem c4_extern_search_order_witness :
    externResolve
      (fun p => if p = "root/display/config.yml" then some (.sbool true)
        else if p = "root/display.yml" then some (.sbool false) else none)
      (externCandidates "root" "display") =
      some (.sbool true, "root" ++ "/" ++ "display") :=
  (c4_extern_search_order
    (fun p => if p = "root/display/config.yml" then some (.sbool true)
      else if p = "root/display.yml" then some (.sbool false) else none)
    "root" "display").2.2.2.2.1 (.sbool true) (.sbool false) (by rfl) (by rfl)

/-- C5: when a field is marked `"extern"` and none of the four candidate
files exists, the field is loaded exactly as if its key were absent from
the document — in particular a compound field takes its own `default()`
and a string field takes its declared default. -/
theorem c5_extern_unresolved_defaults (fs : FS) (ctx : LoadContext)
    (kvs : List (String × Node)) (name : String)
    (hmark : lookupKey kvs name = some (.sstr "extern"))
    (h1 : fs (ctx.baseDir ++ "/" ++ name ++ "/config.yml") = none)
    (h2 : fs (ctx.baseDir ++ "/" ++ name ++ "/config.yaml") = none)
    (h3 : fs (ctx.baseDir ++ "/" ++ name ++ ".yml") = none)
    (h4 : fs (ctx.baseDir ++ "/" ++ name ++ ".yaml") = none) :
    (∀ (α : Type)
      (fromN : FS → LoadContext → Option Node → Except ConversionError α)
      (dflt : α) (kvs₂ : List (String × Node)),
      lookupKey kvs₂ name = none →
      loadField fromN dflt fs ctx kvs name =
        loadField fromN dflt fs ctx kvs₂ name) ∧
    loadField DisplayConfig.fromNode DisplayConfig.default fs ctx kvs name =
      DisplayConfig.default ∧
    loadField strFromNode "Amethyst game" fs ctx kvs name =
      "Amethyst game" := by
  have hres : externResolve fs (externCandidates ctx.baseDir name) = none := by
    simp only [externCandidates]
    rw [externResolve_cons_miss fs h1, externResolve_cons_miss fs h2,
      externResolve_cons_miss fs h3, externResolve_cons_miss fs h4]
    rfl
  refine ⟨?_, ?_, ?_⟩
  · intro α fromN dflt kvs₂ habsent
    rw [loadField_extern_miss fromN dflt fs ctx kvs name hmark hres,
      loadField_of_not_marker fromN dflt fs ctx kvs₂ name
        (by rw [habsent]; rfl), habsent]
  · rw [loadField_extern_miss DisplayConfig.fromNode DisplayConfig.default
      fs ctx kvs name hmark hres]
    rfl
  · rw [loadField_extern_miss strFromNode "Amethyst game"
      fs ctx kvs name hmark hres]
    rfl

/-- C5 witness: on an empty filesystem, a `display: "extern"` entry loads
`DisplayConfig.default`. -/
theorem c5_extern_unresolved_defaults_witness :
    loadField DisplayConfig.fromNode DisplayConfig.default (fun _ => none)
      ⟨"root", []⟩ [("display", Node.sstr "extern")] "display" =
      DisplayConfig.default :=
  (c5_extern_unresolved_defaults (fun _ => none) ⟨"root", []⟩
    [("display", Node.sstr "extern")] "display"
    (by rfl) rfl rfl rfl rfl).2.1

/-- C8: `load` returns an error exactly when the root file is missing or
unparseable; whenever a root node is obtained, `load` returns a value, so
no per-field conversion failure can make it fail. -/
theorem c8_load_fails_iff_root_missing (fs : FS) (baseDir file : String) :
    ((∃ e, load fs baseDir file = .error e) ↔
      fs (baseDir ++ "/" ++ file) = none) ∧
    (∀ n, fs (baseDir ++ "/" ++ file) = some n →
      ∃ c, load fs baseDir file = .ok c) ∧
    (fs (baseDir ++ "/" ++ file) = none →
      load fs baseDir file = .error ⟨.io, []⟩) := by
  refine ⟨⟨?_, ?_⟩, ?_, ?_⟩
  · rintro ⟨e, he⟩
    cases hfs : fs (baseDir ++ "/" ++ file) with
    | none => rfl
    | some n =>
      unfold load at he
      rw [hfs] at he
      exact Except.noConfusion he
  · intro h
    refine ⟨⟨.io, []⟩, ?_⟩
    unfold load
    rw [h]
  · intro n h
    refine ⟨recover (Config.fromNode fs ⟨baseDir, []⟩ (some n))
      Config.default, ?_⟩
    unfold load
    rw [h]
  · intro h
    unfold load
    rw [h]

/-- C8 witness: a missing root file fails with an `Io` error, and a root
file parsing to a bare scalar (a per-field-hopeless document) still
loads. -/
theorem c8_load_fails_iff_root_missing_witness :
    load (fun _ => none) "base" "run.yml" = .error ⟨.io, []⟩ ∧
    ∃ c, load (fun _ => some (.sint 7)) "base" "run.yml" = .ok c :=
  ⟨(c8_load_fails_iff_root_missing (fun _ => none) "base" "run.yml").2.2 rfl,
   (c8_load_fails_iff_root_missing (fun _ => some (.sint 7)) "base"
      "run.yml").2.1 (.sint 7) rfl⟩

/-- Element-wise conversion preserves the number of elements when it
succeeds. -/
theorem convertAll_ok_length {α : Type}
    (f : Node → Except ConversionError α) :
    ∀ (xs : List Node) (ys : List α),
      convertAll f xs = .ok ys → ys.length = xs.length := by
  intro xs
  induction xs with
  | nil =>
    intro ys h
    simp only [convertAll] at h
    cases h
    rfl
  | cons x rest ih =>
    intro ys h
    simp only [convertAll] at h
    cases hf : f x with
    | error e => rw [hf] at h; exact Except.noConfusion h
    | ok v =>
      rw [hf] at h
      cases hca : convertAll f rest with
      | error e => rw [hca] at h; exact Except.noConfusion h
      | ok vs =>
        rw [hca] at h
        cases h
        simp [ih vs hca]

/-- C6: the fixed-size array adapter of declared length `n` yields
`Malformed` on a sequence of any other length, succeeds only on a
sequence node of exactly `n` elements (producing `n` elements),
short-circuits on the first element failure, and consequently a
3-element sequence for `DisplayConfig`'s 2-element `size` field falls
back to the entire default array, not a truncation. -/
theorem c6_fixed_array_exact_length (fs : FS) (ctx : LoadContext) :
    (∀ (α : Type)
      (elemFrom : FS → LoadContext → Option Node → Except ConversionError α)
      (n : Nat) (xs : List Node), xs.length ≠ n →
      arrFromNode elemFrom n fs ctx (some (.seq xs)) =
        .error ⟨.malformed, ctx.fieldPath⟩) ∧
    (∀ (α : Type)
      (elemFrom : FS → LoadContext → Option Node → Except ConversionError α)
      (n : Nat) (node : Option Node) (ys : List α),
      arrFromNode elemFrom n fs ctx node = .ok ys →
      ∃ xs, node = some (.seq xs) ∧ xs.length = n ∧ ys.length = n) ∧
    (∀ (α : Type)
      (elemFrom : FS → LoadContext → Option Node → Except ConversionError α)
      (n : Nat) (x : Node) (rest : List Node) (e : ConversionError),
      elemFrom fs ctx (some x) = .error e → (x :: rest).length = n →
      arrFromNode elemFrom n fs ctx (some (.seq (x :: rest))) = .error e) ∧
    (∀ (kvs : List (String × Node)) (a b c : Node),
      lookupKey kvs "size" = some (.seq [a, b, c]) →
      ∃ d, DisplayConfig.fromNode fs ctx (some (.nmap kvs)) = .ok d ∧
        d.size = [1024, 768]) := by
  refine ⟨?_, ?_, ?_, ?_⟩
  · intro α elemFrom n xs hlen
    simp only [arrFromNode, if_neg hlen]
  · intro α elemFrom n node ys h
    match node with
    | none => exact Except.noConfusion h
    | some (.sstr s) => exact Except.noConfusion h
    | some (.sint i) => exact Except.noConfusion h
    | some (.sreal r) => exact Except.noConfusion h
    | some (.sbool b) => exact Except.noConfusion h
    | some (.nmap kvs) => exact Except.noConfusion h
    | some (.seq xs) =>
      refine ⟨xs, rfl, ?_⟩
      simp only [arrFromNode] at h
      by_cases hlen : xs.length = n
      · rw [if_pos hlen] at h
        exact ⟨hlen, by rw [convertAll_ok_length _ xs ys h, hlen]⟩
      · rw [if_neg hlen] at h
        exact Except.noConfusion h
  · intro α elemFrom n x rest e he hlen
    simp only [arrFromNode, if_pos hlen, convertAll, he]
  · intro kvs a b c h
    refine ⟨_, displayFromNode_nmap fs ctx kvs, ?_⟩
    show loadField (arrFromNode u16FromNode 2) [1024, 768]
      fs ctx kvs "size" = [1024, 768]
    rw [loadField_of_not_marker (arrFromNode u16FromNode 2) [1024, 768]
      fs ctx kvs "size" (by rw [h]; rfl), h]
    rfl

/-- C6 witness: a document giving the 2-element `size` field a 3-element
sequence loads the whole default array `[1024, 768]`. -/
theorem c6_fixed_array_exact_length_witness :
    ∃ d, DisplayConfig.fromNode (fun _ => none) ⟨"b", []⟩
      (some (.nmap [("size", .seq [.sint 1, .sint 2, .sint 3])])) = .ok d ∧
      d.size = [1024, 768] :=
  (c6_fixed_array_exact_length (fun _ => none) ⟨"b", []⟩).2.2.2
    [("size", .seq [.sint 1, .sint 2, .sint 3])]
    (.sint 1) (.sint 2) (.sint 3) (by rfl)

/-- C7: the `Test` enum adapter accepts exactly the scalar strings
`"Option1"`, `"Option2"`, `"Option3"` (case-sensitive), rejects every
other scalar string with `TypeMismatch`, succeeds only on those three
nodes, and inside a `Config` load an unknown variant string leaves the
load succeeding with the declared default variant `Option1`. -/
theorem c7_enum_exact_match (fs : FS) (ctx : LoadContext) :
    Test.fromNode fs ctx (some (.sstr "Option1")) = .ok .Option1 ∧
    Test.fromNode fs ctx (some (.sstr "Option2")) = .ok .Option2 ∧
    Test.fromNode fs ctx (some (.sstr "Option3")) = .ok .Option3 ∧
    (∀ s, s ≠ "Option1" → s ≠ "Option2" → s ≠ "Option3" →
      Test.fromNode fs ctx (some (.sstr s)) =
        .error ⟨.typeMismatch, ctx.fieldPath⟩) ∧
    (∀ (node : Option Node) (v : Test), Test.fromNode fs ctx node = .ok v →
      node = some (.sstr "Option1") ∨ node = some (.sstr "Option2") ∨
        node = some (.sstr "Option3")) ∧
    (∀ (kvs : List (String × Node)) (s : String),
      lookupKey kvs "en" = some (.sstr s) →
      s ≠ "Option1" → s ≠ "Option2" → s ≠ "Option3" → s ≠ "extern" →
      ∃ c, Config.fromNode fs ctx (some (.nmap kvs)) = .ok c ∧
        c.en = .Option1) := by
  refine ⟨rfl, rfl, rfl, ?_, ?_, ?_⟩
  · intro s h1 h2 h3
    simp only [Test.fromNode, if_neg h1, if_neg h2, if_neg h3]
  · intro node v h
    match node with
    | none => exact Except.noConfusion h
    | some (.sint i) => exact Except.noConfusion h
    | some (.sreal r) => exact Except.noConfusion h
    | some (.sbool b) => exact Except.noConfusion h
    | some (.seq xs) => exact Except.noConfusion h
    | some (.nmap kvs) => exact Except.noConfusion h
    | some (.sstr s) =>
      simp only [Test.fromNode] at h
      split_ifs at h with h1 h2 h3
      · exact Or.inl (by rw [h1])
      · exact Or.inr (Or.inl (by rw [h2]))
      · exact Or.inr (Or.inr (by rw [h3]))
  · intro kvs s hl h1 h2 h3 hx
    have hm : isExternMarker (lookupKey kvs "en") = false := by
      rw [hl]
      exact beq_eq_false_iff_ne.mpr hx
    refine ⟨_, configFromNode_nmap fs ctx kvs, ?_⟩
    show loadField Test.fromNode .Option1 fs ctx kvs "en" = .Option1
    rw [loadField_of_not_marker Test.fromNode .Option1 fs ctx kvs "en" hm, hl]
    simp only [Test.fromNode, if_neg h1, if_neg h2, if_neg h3]
    rfl

/-- C7 witness: `en: "Option9"` loads a full `Config` whose `en` field is
the default variant `Option1`. -/
theorem c7_enum_exact_match_witness :
    ∃ c, Config.fromNode (fun _ => none) ⟨"b", []⟩
      (some (.nmap [("en", .sstr "Option9")])) = .ok c ∧
      c.en = .Option1 :=
  (c7_enum_exact_match (fun _ => none) ⟨"b", []⟩).2.2.2.2.2
    [("en", .sstr "Option9")] "Option9" (by rfl)
    (by decide) (by decide) (by decide) (by decide)

/-- The `u64` adapter accepts an in-range integer scalar. -/
theorem u64FromNode_ofNat (fs : FS) (ctx : LoadContext) (a : Nat)
    (ha : a < 18446744073709551616) :
    u64FromNode fs ctx (some (.sint (Int.ofNat a))) = .ok a := by
  simp only [u64FromNode]
  rw [if_pos ⟨by simp only [Int.ofNat_eq_natCast]; omega,
    by simp only [Int.ofNat_eq_natCast]; omega⟩]
  rfl

/-- Loading `InnerInnerConfig` from a mapping carrying an in-range
integer for `field` yields exactly that value. -/
theorem innerInnerFromNode_sint (fs : FS) (ctx : LoadContext) (a : Nat)
    (ha : a < 18446744073709551616) :
    InnerInnerConfig.fromNode fs ctx
      (some (.nmap [("field", .sint (Int.ofNat a))])) = .ok ⟨a⟩ := by
  rw [innerInnerConfigFromNode_nmap]
  have h : loadField u64FromNode 58123 fs ctx
      [("field", .sint (Int.ofNat a))] "field" = a := by
    rw [loadField_of_not_marker u64FromNode 58123 fs ctx
      [("field", .sint (Int.ofNat a))] "field" rfl]
    show recover (u64FromNode fs ⟨ctx.baseDir, ctx.fieldPath ++ ["field"]⟩
      (some (.sint (Int.ofNat a)))) 58123 = a
    rw [u64FromNode_ofNat fs ⟨ctx.baseDir, ctx.fieldPath ++ ["field"]⟩ a ha]
    rfl
  rw [h]

/-- Loading `InnerConfig` from a mapping whose `inner_inner` entry
carries an in-range integer `field` yields exactly that nested value. -/
theorem innerFromNode_sint (fs : FS) (ctx : LoadContext) (b : Nat)
    (hb : b < 18446744073709551616) :
    InnerConfig.fromNode fs ctx
      (some (.nmap [("inner_inner",
        .nmap [("field", .sint (Int.ofNat b))])])) = .ok ⟨⟨b⟩⟩ := by
  rw [innerConfigFromNode_nmap]
  have h : loadField InnerInnerConfig.fromNode InnerInnerConfig.default
      fs ctx [("inner_inner", .nmap [("field", .sint (Int.ofNat b))])]
      "inner_inner" = ⟨b⟩ := by
    rw [loadField_of_not_marker InnerInnerConfig.fromNode
      InnerInnerConfig.default fs ctx
      [("inner_inner", .nmap [("field", .sint (Int.ofNat b))])]
      "inner_inner" rfl]
    show recover (InnerInnerConfig.fromNode fs
      ⟨ctx.baseDir, ctx.fieldPath ++ ["inner_inner"]⟩
      (some (.nmap [("field", .sint (Int.ofNat b))]))) InnerInnerConfig.default
      = (⟨b⟩ : InnerInnerConfig)
    rw [innerInnerFromNode_sint fs
      ⟨ctx.baseDir, ctx.fieldPath ++ ["inner_inner"]⟩ b hb]
    rfl
  rw [h]

/-- C9: a `String`-typed field assigned the scalar string `"extern"` is
never loaded literally.  Whenever the resolver finds no file for `title`,
no document can make `title` hold `"extern"`; with the marker present and
no file, `title` takes its declared default; with a file, the value comes
from the resolved file's node under the redirected directory. -/
theorem c9_string_extern_never_literal (fs : FS) (ctx : LoadContext)
    (kvs : List (String × Node)) :
    (∀ c, externResolve fs (externCandidates ctx.baseDir "title") = none →
      Config.fromNode fs ctx (some (.nmap kvs)) = .ok c →
      c.title ≠ "extern") ∧
    (lookupKey kvs "title" = some (.sstr "extern") →
      externResolve fs (externCandidates ctx.baseDir "title") = none →
      ∃ c, Config.fromNode fs ctx (some (.nmap kvs)) = .ok c ∧
        c.title = "Amethyst game") ∧
    (∀ n d, lookupKey kvs "title" = some (.sstr "extern") →
      externResolve fs (externCandidates ctx.baseDir "title") = some (n, d) →
      ∃ c, Config.fromNode fs ctx (some (.nmap kvs)) = .ok c ∧
        c.title = recover (strFromNode fs ⟨d, ctx.fieldPath ++ ["title"]⟩
          (some n)) "Amethyst game") := by
  refine ⟨?_, ?_, ?_⟩
  · intro c hres hok
    rw [configFromNode_nmap] at hok
    cases hok
    show loadField strFromNode "Amethyst game" fs ctx kvs "title" ≠ "extern"
    cases hl : lookupKey kvs "title" with
    | none =>
      rw [loadField_of_not_marker strFromNode "Amethyst game" fs ctx kvs
        "title" (by rw [hl]; rfl), hl]
      show ("Amethyst game" : String) ≠ "extern"
      decide
    | some nd =>
      cases nd with
      | sstr s =>
        by_cases hs : s = "extern"
        · subst hs
          rw [loadField_extern_miss strFromNode "Amethyst game" fs ctx kvs
            "title" hl hres]
          show ("Amethyst game" : String) ≠ "extern"
          decide
        · rw [loadField_of_not_marker strFromNode "Amethyst game" fs ctx kvs
            "title" (by rw [hl]; exact beq_eq_false_iff_ne.mpr hs), hl]
          exact hs
      | sint i =>
        rw [loadField_of_not_marker strFromNode "Amethyst game" fs ctx kvs
          "title" (by rw [hl]; rfl), hl]
        show ("Amethyst game" : String) ≠ "extern"
        decide
      | sreal r =>
        rw [loadField_of_not_marker strFromNode "Amethyst game" fs ctx kvs
          "title" (by rw [hl]; rfl), hl]
        show ("Amethyst game" : String) ≠ "extern"
        decide
      | sbool b =>
        rw [loadField_of_not_marker strFromNode "Amethyst game" fs ctx kvs
          "title" (by rw [hl]; rfl), hl]
        show ("Amethyst game" : String) ≠ "extern"
        decide
      | seq xs =>
        rw [loadField_of_not_marker strFromNode "Amethyst game" fs ctx kvs
          "title" (by rw [hl]; rfl), hl]
        show ("Amethyst game" : String) ≠ "extern"
        decide
      | nmap kvs2 =>
        rw [loadField_of_not_marker strFromNode "Amethyst game" fs ctx kvs
          "title" (by rw [hl]; rfl), hl]
        show ("Amethyst game" : String) ≠ "extern"
        decide
  · intro hl hres
    refine ⟨_, configFromNode_nmap fs ctx kvs, ?_⟩
    show loadField strFromNode "Amethyst game" fs ctx kvs "title" =
      "Amethyst game"
    rw [loadField_extern_miss strFromNode "Amethyst game" fs ctx kvs
      "title" hl hres]
    rfl
  · intro n d hl hres
    refine ⟨_, configFromNode_nmap fs ctx kvs, ?_⟩
    show loadField strFromNode "Amethyst game" fs ctx kvs "title" =
      recover (strFromNode fs ⟨d, ctx.fieldPath ++ ["title"]⟩ (some n))
        "Amethyst game"
    rw [loadField_extern_hit strFromNode "Amethyst game" fs ctx kvs
      "title" hl hres]

/-- C9 witness: `title: "extern"` on an empty filesystem loads the
declared default title, not the literal string. -/
theorem c9_string_extern_never_literal_witness :
    ∃ c, Config.fromNode (fun _ => none) ⟨"b", []⟩
      (some (.nmap [("title", .sstr "extern")])) = .ok c ∧
      c.title = "Amethyst game" :=
  (c9_string_extern_never_literal (fun _ => none) ⟨"b", []⟩
    [("title", .sstr "extern")]).2.1 (by rfl) (by rfl)

/-- C10: `InnerInnerConfig` occurs both as `Config.inner_inner` and,
nested, as `Config.inner.inner_inner`; the two occurrences are loaded and
defaulted independently: any pair of in-range values is realizable by a
document, and either occurrence can be defaulted while the other carries
a loaded value. -/
theorem c10_same_schema_independent (fs : FS) (ctx : LoadContext)
    (a b : Nat) (ha : a < 18446744073709551616)
    (hb : b < 18446744073709551616) :
    (∃ kvs c, Config.fromNode fs ctx (some (.nmap kvs)) = .ok c ∧
      c.inner_inner = ⟨a⟩ ∧ c.inner = ⟨⟨b⟩⟩) ∧
    (∃ kvs c, Config.fromNode fs ctx (some (.nmap kvs)) = .ok c ∧
      c.inner_inner = ⟨a⟩ ∧ c.inner = InnerConfig.default) ∧
    (∃ kvs c, Config.fromNode fs ctx (some (.nmap kvs)) = .ok c ∧
      c.inner_inner = InnerInnerConfig.default ∧ c.inner = ⟨⟨b⟩⟩) := by
  have hinner2 : ∀ kvs, lookupKey kvs "inner_inner" =
      some (.nmap [("field", .sint (Int.ofNat a))]) →
      loadField InnerInnerConfig.fromNode InnerInnerConfig.default
        fs ctx kvs "inner_inner" = ⟨a⟩ := by
    intro kvs hl
    rw [loadField_of_not_marker InnerInnerConfig.fromNode
      InnerInnerConfig.default fs ctx kvs "inner_inner"
      (by rw [hl]; rfl), hl]
    show recover (InnerInnerConfig.fromNode fs
      ⟨ctx.baseDir, ctx.fieldPath ++ ["inner_inner"]⟩
      (some (.nmap [("field", .sint (Int.ofNat a))])))
      InnerInnerConfig.default = (⟨a⟩ : InnerInnerConfig)
    rw [innerInnerFromNode_sint fs
      ⟨ctx.baseDir, ctx.fieldPath ++ ["inner_inner"]⟩ a ha]
    rfl
  have hinner : ∀ kvs, lookupKey kvs "inner" =
      some (.nmap [("inner_inner", .nmap [("field", .sint (Int.ofNat b))])]) →
      loadField InnerConfig.fromNode InnerConfig.default
        fs ctx kvs "inner" = ⟨⟨b⟩⟩ := by
    intro kvs hl
    rw [loadField_of_not_marker InnerConfig.fromNode InnerConfig.default
      fs ctx kvs "inner" (by rw [hl]; rfl), hl]
    show recover (InnerConfig.fromNode fs
      ⟨ctx.baseDir, ctx.fieldPath ++ ["inner"]⟩
      (some (.nmap [("inner_inner",
        .nmap [("field", .sint (Int.ofNat b))])])))
      InnerConfig.default = (⟨⟨b⟩⟩ : InnerConfig)
    rw [innerFromNode_sint fs
      ⟨ctx.baseDir, ctx.fieldPath ++ ["inner"]⟩ b hb]
    rfl
  refine ⟨?_, ?_, ?_⟩
  · refine ⟨[("inner_inner", .nmap [("field", .sint (Int.ofNat a))]),
      ("inner", .nmap [("inner_inner",
        .nmap [("field", .sint (Int.ofNat b))])])],
      _, configFromNode_nmap fs ctx _, ?_, ?_⟩
    · exact hinner2 [("inner_inner", .nmap [("field", .sint (Int.ofNat a))]),
        ("inner", .nmap [("inner_inner",
          .nmap [("field", .sint (Int.ofNat b))])])] rfl
    · exact hinner [("inner_inner", .nmap [("field", .sint (Int.ofNat a))]),
        ("inner", .nmap [("inner_inner",
          .nmap [("field", .sint (Int.ofNat b))])])] rfl
  · refine ⟨[("inner_inner", .nmap [("field", .sint (Int.ofNat a))])],
      _, configFromNode_nmap fs ctx _, ?_, ?_⟩
    · exact hinner2 [("inner_inner", .nmap [("field", .sint (Int.ofNat a))])] rfl
    · rfl
  · refine ⟨[("inner", .nmap [("inner_inner",
        .nmap [("field", .sint (Int.ofNat b))])])],
      _, configFromNode_nmap fs ctx _, ?_, ?_⟩
    · rfl
    · exact hinner [("inner", .nmap [("inner_inner",
        .nmap [("field", .sint (Int.ofNat b))])])] rfl

/-- C10 witness: a concrete document assigns 1 to the outer occurrence
and 2 to the nested occurrence of `InnerInnerConfig.field`. -/
theorem c10_same_schema_independent_witness :
    ∃ kvs c, Config.fromNode (fun _ => none) ⟨"b", []⟩
      (some (.nmap kvs)) = .ok c ∧
      c.inner_inner = ⟨1⟩ ∧ c.inner = ⟨⟨2⟩⟩ :=
  (c10_same_schema_independent (fun _ => none) ⟨"b", []⟩ 1 2
    (by decide) (by decide)).1

/-- Any node other than the scalar string `"extern"` is not the extern
marker. -/
theorem isExternMarker_false_of_ne (n : Node) (h : n ≠ .sstr "extern") :
    isExternMarker (some n) = false := by
  cases n with
  | sstr s =>
    by_cases hs : s = "extern"
    · exact absurd (by rw [hs]) h
    · exact beq_eq_false_iff_ne.mpr hs
  | sint i => rfl
  | sreal r => rfl
  | sbool b => rfl
  | seq xs => rfl
  | nmap kvs => rfl

/-- A field whose (non-marker) child fails conversion takes its declared
default. -/
theorem loadField_default_of_error {α : Type}
    (fromN : FS → LoadContext → Option Node → Except ConversionError α)
    (dflt : α) (fs : FS) (ctx : LoadContext) (kvs : List (String × Node))
    (name : String) (n : Node) (e : ConversionError)
    (hn : lookupKey kvs name = some n)
    (hmark : isExternMarker (some n) = false)
    (herr : fromN fs ⟨ctx.baseDir, ctx.fieldPath ++ [name]⟩ (some n) =
      .error e) :
    loadField fromN dflt fs ctx kvs name = dflt := by
  rw [loadField_of_not_marker fromN dflt fs ctx kvs name
    (by rw [hn]; exact hmark), hn, herr]
  rfl

/-- The `String` adapter fails on every non-string node. -/
theorem strFromNode_error_of_not_sstr (fs : FS) (ctx : LoadContext)
    (n : Node) (h : ∀ s, n ≠ .sstr s) :
    ∃ e, strFromNode fs ctx (some n) = .error e := by
  cases n with
  | sstr s => exact absurd rfl (h s)
  | sint i => exact ⟨_, rfl⟩
  | sreal r => exact ⟨_, rfl⟩
  | sbool b => exact ⟨_, rfl⟩
  | seq xs => exact ⟨_, rfl⟩
  | nmap kvs => exact ⟨_, rfl⟩

/-- The enum adapter fails on every non-string node. -/
theorem testFromNode_error_of_not_sstr (fs : FS) (ctx : LoadContext)
    (n : Node) (h : ∀ s, n ≠ .sstr s) :
    ∃ e, Test.fromNode fs ctx (some n) = .error e := by
  cases n with
  | sstr s => exact absurd rfl (h s)
  | sint i => exact ⟨_, rfl⟩
  | sreal r => exact ⟨_, rfl⟩
  | sbool b => exact ⟨_, rfl⟩
  | seq xs => exact ⟨_, rfl⟩
  | nmap kvs => exact ⟨_, rfl⟩

/-- `DisplayConfig` conversion fails on every present non-mapping node. -/
theorem displayFromNode_error_of_not_nmap (fs : FS) (ctx : LoadContext)
    (n : Node) (h : ∀ l, n ≠ .nmap l) :
    ∃ e, DisplayConfig.fromNode fs ctx (some n) = .error e := by
  cases n with
  | nmap l => exact absurd rfl (h l)
  | sstr s => exact ⟨_, rfl⟩
  | sint i => exact ⟨_, rfl⟩
  | sreal r => exact ⟨_, rfl⟩
  | sbool b => exact ⟨_, rfl⟩
  | seq xs => exact ⟨_, rfl⟩

/-- `LoggingConfig` conversion fails on every present non-mapping node. -/
theorem loggingFromNode_error_of_not_nmap (fs : FS) (ctx : LoadContext)
    (n : Node) (h : ∀ l, n ≠ .nmap l) :
    ∃ e, LoggingConfig.fromNode fs ctx (some n) = .error e := by
  cases n with
  | nmap l => exact absurd rfl (h l)
  | sstr s => exact ⟨_, rfl⟩
  | sint i => exact ⟨_, rfl⟩
  | sreal r => exact ⟨_, rfl⟩
  | sbool b => exact ⟨_, rfl⟩
  | seq xs => exact ⟨_, rfl⟩

/-- `InnerConfig` conversion fails on every present non-mapping node. -/
theorem innerFromNode_error_of_not_nmap (fs : FS) (ctx : LoadContext)
    (n : Node) (h : ∀ l, n ≠ .nmap l) :
    ∃ e, InnerConfig.fromNode fs ctx (some n) = .error e := by
  cases n with
  | nmap l => exact absurd rfl (h l)
  | sstr s => exact ⟨_, rfl⟩
  | sint i => exact ⟨_, rfl⟩
  | sreal r => exact ⟨_, rfl⟩
  | sbool b => exact ⟨_, rfl⟩
  | seq xs => exact ⟨_, rfl⟩

/-- `InnerInnerConfig` conversion fails on every present non-mapping
node. -/
theorem innerInnerFromNode_error_of_not_nmap (fs : FS) (ctx : LoadContext)
    (n : Node) (h : ∀ l, n ≠ .nmap l) :
    ∃ e, InnerInnerConfig.fromNode fs ctx (some n) = .error e := by
  cases n with
  | nmap l => exact absurd rfl (h l)
  | sstr s => exact ⟨_, rfl⟩
  | sint i => exact ⟨_, rfl⟩
  | sreal r => exact ⟨_, rfl⟩
  | sbool b => exact ⟨_, rfl⟩
  | seq xs => exact ⟨_, rfl⟩

/-- C1: loading `Config` from any mapping always succeeds (no field-level
error reaches the caller); each field whose entry is missing or of the
wrong shape takes its own declared default; and each field's loaded value
depends only on the entry bound to its own name, so a bad value for one
field leaves every sibling's value unaffected. -/
theorem c1_bad_field_defaults_locally (fs : FS) (ctx : LoadContext)
    (kvs : List (String × Node)) :
    ∃ c, Config.fromNode fs ctx (some (.nmap kvs)) = .ok c ∧
      ((lookupKey kvs "title" = none → c.title = "Amethyst game") ∧
       (∀ n, lookupKey kvs "title" = some n → (∀ s, n ≠ .sstr s) →
         c.title = "Amethyst game")) ∧
      ((lookupKey kvs "en" = none → c.en = .Option1) ∧
       (∀ n, lookupKey kvs "en" = some n → (∀ s, n ≠ .sstr s) →
         c.en = .Option1)) ∧
      ((lookupKey kvs "display" = none → c.display = DisplayConfig.default) ∧
       (∀ n, lookupKey kvs "display" = some n → (∀ l, n ≠ .nmap l) →
         n ≠ .sstr "extern" → c.display = DisplayConfig.default)) ∧
      ((lookupKey kvs "logging" = none → c.logging = LoggingConfig.default) ∧
       (∀ n, lookupKey kvs "logging" = some n → (∀ l, n ≠ .nmap l) →
         n ≠ .sstr "extern" → c.logging = LoggingConfig.default)) ∧
      ((lookupKey kvs "inner" = none → c.inner = InnerConfig.default) ∧
       (∀ n, lookupKey kvs "inner" = some n → (∀ l, n ≠ .nmap l) →
         n ≠ .sstr "extern" → c.inner = InnerConfig.default)) ∧
      ((lookupKey kvs "inner_inner" = none →
         c.inner_inner = InnerInnerConfig.default) ∧
       (∀ n, lookupKey kvs "inner_inner" = some n → (∀ l, n ≠ .nmap l) →
         n ≠ .sstr "extern" → c.inner_inner = InnerInnerConfig.default)) ∧
      (∀ (kvs₂ : List (String × Node)) (c₂ : Config),
        Config.fromNode fs ctx (some (.nmap kvs₂)) = .ok c₂ →
        (lookupKey kvs₂ "title" = lookupKey kvs "title" →
          c₂.title = c.title) ∧
        (lookupKey kvs₂ "en" = lookupKey kvs "en" → c₂.en = c.en) ∧
        (lookupKey kvs₂ "display" = lookupKey kvs "display" →
          c₂.display = c.display) ∧
        (lookupKey kvs₂ "logging" = lookupKey kvs "logging" →
          c₂.logging = c.logging) ∧
        (lookupKey kvs₂ "inner" = lookupKey kvs "inner" →
          c₂.inner = c.inner) ∧
        (lookupKey kvs₂ "inner_inner" = lookupKey kvs "inner_inner" →
          c₂.inner_inner = c.inner_inner)) := by
  refine ⟨_, configFromNode_nmap fs ctx kvs, ?_, ?_, ?_, ?_, ?_, ?_, ?_⟩
  · constructor
    · intro h
      show loadField strFromNode "Amethyst game" fs ctx kvs "title" =
        "Amethyst game"
      rw [loadField_of_not_marker strFromNode "Amethyst game" fs ctx kvs
        "title" (by rw [h]; rfl), h]
      rfl
    · intro n hn hns
      show loadField strFromNode "Amethyst game" fs ctx kvs "title" =
        "Amethyst game"
      obtain ⟨e, he⟩ := strFromNode_error_of_not_sstr fs
        ⟨ctx.baseDir, ctx.fieldPath ++ ["title"]⟩ n hns
      exact loadField_default_of_error strFromNode "Amethyst game" fs ctx
        kvs "title" n e hn (isExternMarker_false_of_ne n (hns "extern")) he
  · constructor
    · intro h
      show loadField Test.fromNode .Option1 fs ctx kvs "en" = .Option1
      rw [loadField_of_not_marker Test.fromNode .Option1 fs ctx kvs "en"
        (by rw [h]; rfl), h]
      rfl
    · intro n hn hns
      show loadField Test.fromNode .Option1 fs ctx kvs "en" = .Option1
      obtain ⟨e, he⟩ := testFromNode_error_of_not_sstr fs
        ⟨ctx.baseDir, ctx.fieldPath ++ ["en"]⟩ n hns
      exact loadField_default_of_error Test.fromNode .Option1 fs ctx
        kvs "en" n e hn (isExternMarker_false_of_ne n (hns "extern")) he
  · constructor
    · intro h
      show loadField DisplayConfig.fromNode DisplayConfig.default fs ctx
        kvs "display" = DisplayConfig.default
      rw [loadField_of_not_marker DisplayConfig.fromNode
        DisplayConfig.default fs ctx kvs "display" (by rw [h]; rfl), h]
      rfl
    · intro n hn hl hx
      show loadField DisplayConfig.fromNode DisplayConfig.default fs ctx
        kvs "display" = DisplayConfig.default
      obtain ⟨e, he⟩ := displayFromNode_error_of_not_nmap fs
        ⟨ctx.baseDir, ctx.fieldPath ++ ["display"]⟩ n hl
      exact loadField_default_of_error DisplayConfig.fromNode
        DisplayConfig.default fs ctx kvs "display" n e hn
        (isExternMarker_false_of_ne n hx) he
  · constructor
    · intro h
      show loadField LoggingConfig.fromNode LoggingConfig.default fs ctx
        kvs "logging" = LoggingConfig.default
      rw [loadField_of_not_marker LoggingConfig.fromNode
        LoggingConfig.default fs ctx kvs "logging" (by rw [h]; rfl), h]
      rfl
    · intro n hn hl hx
      show loadField LoggingConfig.fromNode LoggingConfig.default fs ctx
        kvs "logging" = LoggingConfig.default
      obtain ⟨e, he⟩ := loggingFromNode_error_of_not_nmap fs
        ⟨ctx.baseDir, ctx.fieldPath ++ ["logging"]⟩ n hl
      exact loadField_default_of_error LoggingConfig.fromNode
        LoggingConfig.default fs ctx kvs "logging" n e hn
        (isExternMarker_false_of_ne n hx) he
  · constructor
    · intro h
      show loadField InnerConfig.fromNode InnerConfig.default fs ctx
        kvs "inner" = InnerConfig.default
      rw [loadField_of_not_marker InnerConfig.fromNode InnerConfig.default
        fs ctx kvs "inner" (by rw [h]; rfl), h]
      rfl
    · intro n hn hl hx
      show loadField InnerConfig.fromNode InnerConfig.default fs ctx
        kvs "inner" = InnerConfig.default
      obtain ⟨e, he⟩ := innerFromNode_error_of_not_nmap fs
        ⟨ctx.baseDir, ctx.fieldPath ++ ["inner"]⟩ n hl
      exact loadField_default_of_error InnerConfig.fromNode
        InnerConfig.default fs ctx kvs "inner" n e hn
        (isExternMarker_false_of_ne n hx) he
  · constructor
    · intro h
      show loadField InnerInnerConfig.fromNode InnerInnerConfig.default
        fs ctx kvs "inner_inner" = InnerInnerConfig.default
      rw [loadField_of_not_marker InnerInnerConfig.fromNode
        InnerInnerConfig.default fs ctx kvs "inner_inner"
        (by rw [h]; rfl), h]
      rfl
    · intro n hn hl hx
      show loadField InnerInnerConfig.fromNode InnerInnerConfig.default
        fs ctx kvs "inner_inner" = InnerInnerConfig.default
      obtain ⟨e, he⟩ := innerInnerFromNode_error_of_not_nmap fs
        ⟨ctx.baseDir, ctx.fieldPath ++ ["inner_inner"]⟩ n hl
      exact loadField_default_of_error InnerInnerConfig.fromNode
        InnerInnerConfig.default fs ctx kvs "inner_inner" n e hn
        (isExternMarker_false_of_ne n hx) he
  · intro kvs₂ c₂ hok₂
    rw [configFromNode_nmap] at hok₂
    cases hok₂
    refine ⟨?_, ?_, ?_, ?_, ?_, ?_⟩
    · intro h
      exact loadField_congr strFromNode "Amethyst game" fs ctx kvs₂ kvs
        "title" h
    · intro h
      exact loadField_congr Test.fromNode .Option1 fs ctx kvs₂ kvs "en" h
    · intro h
      exact loadField_congr DisplayConfig.fromNode DisplayConfig.default
        fs ctx kvs₂ kvs "display" h
    · intro h
      exact loadField_congr LoggingConfig.fromNode LoggingConfig.default
        fs ctx kvs₂ kvs "logging" h
    · intro h
      exact loadField_congr InnerConfig.fromNode InnerConfig.default
        fs ctx kvs₂ kvs "inner" h
    · intro h
      exact loadField_congr InnerInnerConfig.fromNode
        InnerInnerConfig.default fs ctx kvs₂ kvs "inner_inner" h

/-- C1 witness: a document giving `title` an integer still loads, with
`title` defaulted. -/
theorem c1_bad_field_defaults_locally_witness :
    ∃ c, Config.fromNode (fun _ => none) ⟨"b", []⟩
      (some (.nmap [("title", .sint 3)])) = .ok c ∧
      c.title = "Amethyst game" := by
  obtain ⟨c, hok, ht, -, -, -, -, -, -⟩ :=
    c1_bad_field_defaults_locally (fun _ => none) ⟨"b", []⟩
      [("title", .sint 3)]
  exact ⟨c, hok, ht.2 (.sint 3) rfl (fun s h => Node.noConfusion h)⟩

/-- The `u16` adapter accepts an in-range integer scalar. -/
theorem u16FromNode_ofNat (fs : FS) (ctx : LoadContext) (v : Nat)
    (hv : v < 65536) :
    u16FromNode fs ctx (some (.sint (Int.ofNat v))) = .ok v := by
  simp only [u16FromNode]
  rw [if_pos ⟨by simp only [Int.ofNat_eq_natCast]; omega,
    by simp only [Int.ofNat_eq_natCast]; omega⟩]
  rfl

/-- Element-wise conversion of a cons node when head and tail both
convert. -/
theorem convertAll_cons_ok {α : Type}
    (f : Node → Except ConversionError α) (x : Node) (xs : List Node)
    (v : α) (vs : List α)
    (h1 : f x = .ok v) (h2 : convertAll f xs = .ok vs) :
    convertAll f (x :: xs) = .ok (v :: vs) := by
  unfold convertAll
  rw [h1, h2]

/-- Serializing a list of in-range `u16` values and converting the
elements back recovers the list. -/
theorem convertAll_u16_map (fs : FS) (ctx : LoadContext) :
    ∀ (l : List Nat), (∀ v ∈ l, v < 65536) →
      convertAll (fun x => u16FromNode fs ctx (some x))
        (l.map fun v => Node.sint (Int.ofNat v)) = .ok l := by
  intro l
  induction l with
  | nil => intro _; rfl
  | cons v rest ih =>
    intro hall
    have hv : v < 65536 := hall v (List.mem_cons_self v rest)
    have hrest : ∀ w ∈ rest, w < 65536 :=
      fun w hw => hall w (List.mem_cons_of_mem v hw)
    rw [List.map_cons]
    exact convertAll_cons_ok (fun x => u16FromNode fs ctx (some x))
      (Node.sint (Int.ofNat v))
      (List.map (fun w => Node.sint (Int.ofNat w)) rest) v rest
      (u16FromNode_ofNat fs ctx v hv) (ih hrest)

/-- C3: value-level round-trip fidelity with no extern redirection
involved: for every enum value and every well-formed compound value
(integer fields in machine range, string fields not colliding with the
extern marker), converting `to_node` output back through `from_node`
recovers exactly the original value, at every nesting level. -/
theorem c3_roundtrip (fs : FS) (ctx : LoadContext) :
    (∀ t, Test.fromNode fs ctx (some (Test.toNode t)) = .ok t) ∧
    (∀ c, DisplayConfig.wf c →
      DisplayConfig.fromNode fs ctx (some c.toNode) = .ok c) ∧
    (∀ c, LoggingConfig.wf c →
      LoggingConfig.fromNode fs ctx (some c.toNode) = .ok c) ∧
    (∀ c, InnerInnerConfig.wf c →
      InnerInnerConfig.fromNode fs ctx (some c.toNode) = .ok c) ∧
    (∀ c, InnerConfig.wf c →
      InnerConfig.fromNode fs ctx (some c.toNode) = .ok c) ∧
    (∀ c, Config.wf c → Config.fromNode fs ctx (some c.toNode) = .ok c) := by
  have htest : ∀ (cx : LoadContext) (t : Test),
      Test.fromNode fs cx (some (Test.toNode t)) = .ok t := by
    intro cx t
    cases t <;> rfl
  have hdisp : ∀ (cx : LoadContext) (c : DisplayConfig),
      DisplayConfig.wf c →
      DisplayConfig.fromNode fs cx (some c.toNode) = .ok c := by
    intro cx c hwf
    obtain ⟨hlen, hbound⟩ := hwf
    cases c with
    | mk br fu si =>
      simp only [DisplayConfig.toNode]
      rw [displayFromNode_nmap]
      simp only [Except.ok.injEq, DisplayConfig.mk.injEq]
      refine ⟨rfl, rfl, ?_⟩
      rw [loadField_of_not_marker]
      · show recover (arrFromNode u16FromNode 2 fs
          ⟨cx.baseDir, cx.fieldPath ++ ["size"]⟩
          (some (.seq (List.map (fun v => Node.sint (Int.ofNat v)) si))))
          [1024, 768] = si
        simp only [arrFromNode]
        rw [if_pos (by rw [List.length_map]; exact hlen)]
        rw [convertAll_u16_map fs ⟨cx.baseDir, cx.fieldPath ++ ["size"]⟩
          si hbound]
        rfl
      · rfl
  have hlog : ∀ (cx : LoadContext) (c : LoggingConfig),
      LoggingConfig.wf c →
      LoggingConfig.fromNode fs cx (some c.toNode) = .ok c := by
    intro cx c hwf
    obtain ⟨h1, h2, h3⟩ := hwf
    cases c with
    | mk fp ol ll =>
      simp only [LoggingConfig.toNode]
      rw [loggingFromNode_nmap]
      simp only [Except.ok.injEq, LoggingConfig.mk.injEq]
      refine ⟨?_, ?_, ?_⟩
      · rw [loadField_of_not_marker]
        · rfl
        · exact beq_eq_false_iff_ne.mpr h1
      · rw [loadField_of_not_marker]
        · rfl
        · exact beq_eq_false_iff_ne.mpr h2
      · rw [loadField_of_not_marker]
        · rfl
        · exact beq_eq_false_iff_ne.mpr h3
  have hii2 : ∀ (cx : LoadContext) (c : InnerInnerConfig),
      InnerInnerConfig.wf c →
      InnerInnerConfig.fromNode fs cx (some c.toNode) = .ok c := by
    intro cx c hwf
    cases c with
    | mk a => exact innerInnerFromNode_sint fs cx a hwf
  have hinn : ∀ (cx : LoadContext) (c : InnerConfig), InnerConfig.wf c →
      InnerConfig.fromNode fs cx (some c.toNode) = .ok c := by
    intro cx c hwf
    cases c with
    | mk ii =>
      cases ii with
      | mk a => exact innerFromNode_sint fs cx a hwf
  refine ⟨htest ctx, hdisp ctx, hlog ctx, hii2 ctx, hinn ctx, ?_⟩
  intro c hwf
  obtain ⟨hti, hdi, hlo, hin, hii⟩ := hwf
  cases c with
  | mk ti en di lo inn ii =>
    simp only [Config.toNode]
    rw [configFromNode_nmap]
    simp only [Except.ok.injEq, Config.mk.injEq]
    refine ⟨?_, ?_, ?_, ?_, ?_, ?_⟩
    · rw [loadField_of_not_marker]
      · rfl
      · exact beq_eq_false_iff_ne.mpr hti
    · cases en <;> rfl
    · rw [loadField_of_not_marker]
      · show recover (DisplayConfig.fromNode fs
          ⟨ctx.baseDir, ctx.fieldPath ++ ["display"]⟩
          (some (DisplayConfig.toNode di))) DisplayConfig.default = di
        rw [hdisp ⟨ctx.baseDir, ctx.fieldPath ++ ["display"]⟩ di hdi]
        rfl
      · rfl
    · rw [loadField_of_not_marker]
      · show recover (LoggingConfig.fromNode fs
          ⟨ctx.baseDir, ctx.fieldPath ++ ["logging"]⟩
          (some (LoggingConfig.toNode lo))) LoggingConfig.default = lo
        rw [hlog ⟨ctx.baseDir, ctx.fieldPath ++ ["logging"]⟩ lo hlo]
        rfl
      · rfl
    · rw [loadField_of_not_marker]
      · show recover (InnerConfig.fromNode fs
          ⟨ctx.baseDir, ctx.fieldPath ++ ["inner"]⟩
          (some (InnerConfig.toNode inn))) InnerConfig.default = inn
        rw [hinn ⟨ctx.baseDir, ctx.fieldPath ++ ["inner"]⟩ inn hin]
        rfl
      · rfl
    · rw [loadField_of_not_marker]
      · show recover (InnerInnerConfig.fromNode fs
          ⟨ctx.baseDir, ctx.fieldPath ++ ["inner_inner"]⟩
          (some (InnerInnerConfig.toNode ii))) InnerInnerConfig.default = ii
        rw [hii2 ⟨ctx.baseDir, ctx.fieldPath ++ ["inner_inner"]⟩ ii hii]
        rfl
      · rfl

/-- C3 witness: `Config.default` is well-formed and round-trips through
`to_node` and `from_node`. -/
theorem c3_roundtrip_witness :
    Config.wf Config.default ∧
    Config.fromNode (fun _ => none) ⟨"b", []⟩
      (some (Config.toNode Config.default)) = .ok Config.default :=
  ⟨⟨by decide, ⟨by decide, by decide⟩, ⟨by decide, by decide, by decide⟩,
     by show (58123 : Nat) < 18446744073709551616; decide,
     by show (58123 : Nat) < 18446744073709551616; decide⟩,
   (c3_roundtrip (fun _ => none) ⟨"b", []⟩).2.2.2.2.2 Config.default
     ⟨by decide, ⟨by decide, by decide⟩, ⟨by decide, by decide, by decide⟩,
      by show (58123 : Nat) < 18446744073709551616; decide,
      by show (58123 : Nat) < 18446744073709551616; decide⟩⟩

end AmethystConfig
